import Mathlib

/-!
Shallow embedding of pgclientlib (src/pgclientlib.hpp), a single-header
PostgreSQL v3 wire-protocol client session.  Byte strings (std::string,
std::vector of uint8_t) are modelled as lists of naturals; the socket is
modelled explicitly: bytes written by the client accumulate in `sent`,
bytes pending from the server are consumed from `input`.  A blocking read
on a stream with too few bytes is the error `Err.blocked`; C++ undefined
behaviour (out-of-range element access) is `Err.ub`; `std::runtime_error`
is `Err.runtimeError`.  The reply-processing loop is given explicit fuel;
`Err.fuel` marks fuel exhaustion (a model artifact, never reached in the
concrete runs below).
-/

namespace PG

abbrev Bytes := List Nat

/-- ASCII bytes of a string literal (all source strings are ASCII). -/
def strBytes (s : String) : Bytes := s.toList.map Char.toNat

/-- enum struct session_state -/
inductive session_state where
| not_connected
| not_started
| ready_for_query
| copy_in
| copy_out
| copy_done
| in_query
| complete
deriving DecidableEq, Repr

/-- enum struct transaction_status -/
inductive transaction_status where
| idle
| active
| error
deriving DecidableEq, Repr

/-- enum struct buffer_format -/
inductive buffer_format where
| none
| query
| copy_text
| copy_binary
deriving DecidableEq, Repr

/-- struct field_descriptor: six big-endian signed fields of 4/2/4/2/4/2 bytes. -/
structure field_descriptor where
  table_oid : Int
  column_no : Int
  data_type : Int
  type_size : Int
  type_modf : Int
  frmt_code : Int
deriving DecidableEq, Repr

/-- Failure modes of the embedded code. -/
inductive Err where
| blocked
| fuel
| ub
| runtimeError (msg : String)
deriving DecidableEq, Repr

/-- The session object: the private members of class session, plus the
explicit transport model (`socket_open`, `sent`, `input`). -/
structure Session where
  echo_codes : Bool
  socket_open : Bool
  state : session_state
  ts : transaction_status
  pid : Nat
  skey : Nat
  buf_fmt : buffer_format
  notifications : List Bytes
  row_queue : List Bytes
  field_map : List (Bytes × field_descriptor)
  pars : List (Bytes × Bytes)
  sent : List Bytes
  input : Bytes
deriving DecidableEq, Repr

/-- Member initializers of class session (a fresh default session). -/
def initSession : Session :=
  { echo_codes := false
  , socket_open := false
  , state := session_state.not_connected
  , ts := transaction_status.idle
  , pid := 0
  , skey := 0
  , buf_fmt := buffer_format.none
  , notifications := []
  , row_queue := []
  , field_map := []
  , pars := []
  , sent := []
  , input := [] }

/-- Big-endian bytes to an unsigned natural. -/
def beNat (bs : Bytes) : Nat := bs.foldl (fun a b => 256 * a + b) 0

/-- Reinterpret an unsigned w-bit value as two's-complement signed. -/
def toSigned (w : Nat) (u : Nat) : Int :=
  if u < 2 ^ (w - 1) then (u : Int) else (u : Int) - 2 ^ w

def be32s (bs : Bytes) : Int := toSigned 32 (beNat bs)

def be16s (bs : Bytes) : Int := toSigned 16 (beNat bs)

/-- The four big-endian bytes of a 32-bit value (boost::endian::big_int32_t). -/
def be32n (n : Nat) : Bytes :=
  [n / 2 ^ 24 % 256, n / 2 ^ 16 % 256, n / 2 ^ 8 % 256, n % 256]

/-- The two big-endian bytes of a 16-bit value (boost::endian::big_int16_t). -/
def be16n (n : Nat) : Bytes := [n / 2 ^ 8 % 256, n % 256]

/-- server_message_header::unread_bytes: `length - sizeof(length)` where
`length` is a signed 32-bit value converted to size_t (64-bit, wrapping). -/
def unread_bytes (length : Int) : Nat := ((length - 4) % (2 ^ 64 : Int)).toNat

/-- send_msg: asio::write of a complete client message (echoing to the
console has no session effect). -/
def send_msg (s : Session) (msg : Bytes) : Session :=
  { s with sent := s.sent ++ [msg] }

/-- asio::read of exactly n bytes; blocks (forever, here: `Err.blocked`)
when the stream cannot supply them. -/
def readBytes (s : Session) (n : Nat) : Session × Except Err Bytes :=
  if n ≤ s.input.length then
    ({ s with input := s.input.drop n }, Except.ok (s.input.take n))
  else (s, Except.error Err.blocked)

/-- read of a single uint8_t. -/
def read1 (s : Session) : Session × Except Err Nat :=
  match readBytes s 1 with
  | (s1, Except.error e) => (s1, Except.error e)
  | (s1, Except.ok bs) => (s1, Except.ok (bs.headD 0))

/-- read of a big_int32_t (value kept unsigned; the sign is never
observed by the source, the bytes are only stored and copied back). -/
def read4 (s : Session) : Session × Except Err Nat :=
  match readBytes s 4 with
  | (s1, Except.error e) => (s1, Except.error e)
  | (s1, Except.ok bs) => (s1, Except.ok (beNat bs))

/-- get_reply: read the 5-byte server message header (code, length). -/
def get_reply (s : Session) : Session × Except Err (Nat × Int) :=
  match readBytes s 5 with
  | (s1, Except.error e) => (s1, Except.error e)
  | (s1, Except.ok bs) => (s1, Except.ok (bs.headD 0, be32s (bs.drop 1)))

/-- read_remaining: read the unread payload bytes of a message. -/
def read_remaining (s : Session) (length : Int) : Session × Except Err Bytes :=
  readBytes s (unread_bytes length)

/-- append: insert msg bytes then push `nulls` zero bytes. -/
def append (buf : Bytes) (msg : Bytes) (nulls : Nat) : Bytes :=
  buf ++ msg ++ List.replicate nulls 0

/-- buf2str: std::string(msg.begin(), msg.end()) copies every payload
byte verbatim, including any embedded or trailing NUL. -/
def buf2str (msg : Bytes) : Bytes := msg

/-- unordered_map::find -/
def mapFind : List (Bytes × Bytes) → Bytes → Option Bytes
| [], _ => Option.none
| (k, v) :: rest, key => if k = key then Option.some v else mapFind rest key

/-- unordered_map assignment m[key] = value (insert or overwrite). -/
def mapInsert : List (Bytes × Bytes) → Bytes → Bytes → List (Bytes × Bytes)
| [], key, value => [(key, value)]
| (k, v) :: rest, key, value =>
  if k = key then (k, value) :: rest else (k, v) :: mapInsert rest key value

/-- unordered_map::operator[]: returns the mapped value, inserting a
default-constructed (empty) value first when the key is absent. -/
def mapBracket (m : List (Bytes × Bytes)) (k : Bytes) :
    List (Bytes × Bytes) × Bytes :=
  match mapFind m k with
  | Option.some v => (m, v)
  | Option.none => (m ++ [(k, [])], [])

/-- Consume bytes up to (and excluding) the next NUL; also drop the NUL.
Returns none when no NUL exists before the end of the buffer (the source
would then read past the end: undefined behaviour). -/
def takeField : Bytes → Option (Bytes × Bytes)
| [] => Option.none
| 0 :: rest => Option.some ([], rest)
| b :: rest =>
  match takeField rest with
  | Option.some (f, r) => Option.some (b :: f, r)
  | Option.none => Option.none

/-- The tag/value scan of parse_notifications: at each nonzero tag byte,
tag M appends a colon-space then the field, tag S appends the field, any
other tag skips the field; a zero tag ends the scan. -/
def notifLoop : Nat → Bytes → Bytes → Option Bytes
| 0, _, _ => Option.none
| _ + 1, _, [] => Option.none
| _ + 1, ss, 0 :: _ => Option.some ss
| f + 1, ss, t :: rest =>
  match takeField rest with
  | Option.none => Option.none
  | Option.some (fld, r) =>
    notifLoop f
      (if t = 77 then ss ++ [58, 32] ++ fld
       else if t = 83 then ss ++ fld else ss) r

/-- parse_notifications: assemble a notification string from a field
list; an empty buffer returns without pushing anything. -/
def parse_notifications (s : Session) (buf : Bytes) :
    Session × Except Err Unit :=
  if buf = [] then (s, Except.ok ())
  else
    match notifLoop (buf.length + 1) [] buf with
    | Option.some ss =>
      ({ s with notifications := s.notifications ++ [ss] }, Except.ok ())
    | Option.none => (s, Except.error Err.ub)

/-- parse_params: key then value, each NUL-terminated; pars[key] = value.
An empty buffer returns without touching the map. -/
def parse_params (s : Session) (buf : Bytes) : Session × Except Err Unit :=
  match buf with
  | [] => (s, Except.ok ())
  | _ =>
    match takeField buf with
    | Option.none => (s, Except.error Err.ub)
    | Option.some (key, rest) =>
      match takeField rest with
      | Option.none => (s, Except.error Err.ub)
      | Option.some (value, _) =>
        ({ s with pars := mapInsert s.pars key value }, Except.ok ())

/-- memcpy of the 18-byte packed big-endian field_descriptor. -/
def readFD (bs : Bytes) : Option (field_descriptor × Bytes) :=
  if bs.length < 18 then Option.none
  else
    Option.some
      ({ table_oid := be32s (bs.take 4)
       , column_no := be16s ((bs.drop 4).take 2)
       , data_type := be32s ((bs.drop 6).take 4)
       , type_size := be16s ((bs.drop 10).take 2)
       , type_modf := be32s ((bs.drop 12).take 4)
       , frmt_code := be16s ((bs.drop 16).take 2) }, bs.drop 18)

/-- The while (nfields--) loop of the RowDescription case. -/
def parseFields : Nat → Bytes → List (Bytes × field_descriptor) →
    Option (List (Bytes × field_descriptor))
| 0, _, acc => Option.some acc
| n + 1, bs, acc =>
  match takeField bs with
  | Option.none => Option.none
  | Option.some (name, rest) =>
    match readFD rest with
    | Option.none => Option.none
    | Option.some (fd, rest2) => parseFields n rest2 (acc ++ [(name, fd)])

/-- The two mutually recursive reply-processing routines, fused into one
fuel-indexed function so that concrete runs reduce: `task.reply c l` is
the body of process_reply for header (c, l); `task.loop` is the
`while (not_ready()) process_reply(get_reply());` loop of handle_replies. -/
inductive task where
| reply (code : Nat) (length : Int)
| loop
deriving DecidableEq, Repr

def run : Nat → Session → task → Session × Except Err Unit
| 0, s, _ => (s, Except.error Err.fuel)
| Nat.succ f, s, task.loop =>
  if s.state = session_state.ready_for_query then (s, Except.ok ())
  else
    match get_reply s with
    | (s1, Except.error e) => (s1, Except.error e)
    | (s1, Except.ok hdr) =>
      match run f s1 (task.reply hdr.1 hdr.2) with
      | (s2, Except.error e) => (s2, Except.error e)
      | (s2, Except.ok _) => run f s2 task.loop
| Nat.succ f, s, task.reply code length =>
  match code with
  | 65 => -- NotificationResponse
    match read_remaining s length with
    | (s1, Except.error e) => (s1, Except.error e)
    | (s1, Except.ok buf) => parse_notifications s1 buf
  | 67 => -- CommandComplete
    match read_remaining s length with
    | (s1, Except.error e) => (s1, Except.error e)
    | (s1, Except.ok buf) =>
      ({ s1 with notifications := s1.notifications ++ [buf2str buf],
                 state := session_state.complete }, Except.ok ())
  | 99 => -- CopyDone
    match read_remaining s length with
    | (s1, Except.error e) => (s1, Except.error e)
    | (s1, Except.ok _) =>
      ({ s1 with state := session_state.copy_done }, Except.ok ())
  | 68 => -- DataRow
    match read_remaining s length with
    | (s1, Except.error e) => (s1, Except.error e)
    | (s1, Except.ok buf) =>
      ({ s1 with row_queue := s1.row_queue ++ [buf] }, Except.ok ())
  | 100 => -- CopyData
    match read_remaining s length with
    | (s1, Except.error e) => (s1, Except.error e)
    | (s1, Except.ok buf) =>
      ({ s1 with row_queue := s1.row_queue ++ [buf] }, Except.ok ())
  | 69 => -- ErrorResponse
    match read_remaining s length with
    | (s1, Except.error e) => (s1, Except.error e)
    | (s1, Except.ok buf) => parse_notifications s1 buf
  | 71 => -- CopyInResponse
    match read_remaining s length with
    | (s1, Except.error e) => (s1, Except.error e)
    | (s1, Except.ok buf) =>
      match buf with
      | [] => (s1, Except.error Err.ub) -- buf[0] on an empty vector
      | b :: _ =>
        ({ s1 with
           buf_fmt := if b ≠ 0 then buffer_format.copy_binary
                      else buffer_format.copy_text,
           state := session_state.copy_in }, Except.ok ())
  | 72 => -- CopyOutResponse
    match read_remaining s length with
    | (s1, Except.error e) => (s1, Except.error e)
    | (s1, Except.ok buf) =>
      match buf with
      | [] => (s1, Except.error Err.ub)
      | b :: _ =>
        ({ s1 with
           buf_fmt := if b ≠ 0 then buffer_format.copy_binary
                      else buffer_format.copy_text,
           state := session_state.copy_out,
           row_queue := [] }, Except.ok ())
  | 73 => -- EmptyQuery
    match read_remaining s length with
    | (s1, Except.error e) => (s1, Except.error e)
    | (s1, Except.ok _) =>
      ({ s1 with notifications :=
          s1.notifications ++ [strBytes ("[Empty request]")] }, Except.ok ())
  | 75 => -- BackendKeyData
    match read4 s with
    | (s1, Except.error e) => (s1, Except.error e)
    | (s1, Except.ok v) =>
      match read4 { s1 with pid := v } with
      | (s2, Except.error e) => (s2, Except.error e)
      | (s2, Except.ok w) => ({ s2 with skey := w }, Except.ok ())
  | 78 => -- NoticeResponse
    match read_remaining s length with
    | (s1, Except.error e) => (s1, Except.error e)
    | (s1, Except.ok buf) => parse_notifications s1 buf
  | 82 => -- Authentication
    match read4 s with
    | (s1, Except.error e) => (s1, Except.error e)
    | (s1, Except.ok auth_code) =>
      if auth_code ≠ 0 then
        (s1, Except.error (Err.runtimeError ("Autentication mode not supported")))
      else
        match get_reply s1 with
        | (s2, Except.error e) => (s2, Except.error e)
        | (s2, Except.ok hdr) =>
          match run f s2 (task.reply hdr.1 hdr.2) with
          | (s3, Except.error e) => (s3, Except.error e)
          | (s3, Except.ok _) =>
            if hdr.1 = 69 then
              (s3, Except.error (Err.runtimeError ("Error in startup; cannot continue")))
            else -- handle_replies(), inlined
              if s3.state = session_state.copy_in then (s3, Except.ok ())
              else run f s3 task.loop
  | 83 => -- ParameterStatus
    match read_remaining s length with
    | (s1, Except.error e) => (s1, Except.error e)
    | (s1, Except.ok buf) => parse_params s1 buf
  | 84 => -- RowDescription
    match read_remaining { s with field_map := [] } length with
    | (s1, Except.error e) => (s1, Except.error e)
    | (s1, Except.ok buf) =>
      if buf.length < 2 then (s1, Except.error Err.ub)
      else
        let nfields := be16s (buf.take 2)
        if nfields < 0 then (s1, Except.error Err.ub)
        else
          match parseFields nfields.toNat (buf.drop 2) [] with
          | Option.none => (s1, Except.error Err.ub)
          | Option.some fm =>
            ({ s1 with field_map := fm,
                       buf_fmt := buffer_format.query,
                       row_queue := [] }, Except.ok ())
  | 90 => -- ReadyForQuery
    match read1 s with
    | (s1, Except.error e) => (s1, Except.error e)
    | (s1, Except.ok b) =>
      if b = 73 then
        ({ s1 with ts := transaction_status.idle,
                   state := session_state.ready_for_query }, Except.ok ())
      else if b = 84 then
        ({ s1 with ts := transaction_status.active,
                   state := session_state.ready_for_query }, Except.ok ())
      else if b = 69 then
        ({ s1 with ts := transaction_status.error,
                   state := session_state.ready_for_query }, Except.ok ())
      else (s1, Except.error (Err.runtimeError ("Invalid transaction status")))
  | _ =>
    match read_remaining s length with
    | (s1, Except.error e) => (s1, Except.error e)
    | (s1, Except.ok _) =>
      (s1, Except.error
        (Err.runtimeError ("Cannot handle server message with code " ++ toString code)))

/-- process_reply on a message header already read. -/
def process_reply (fuel : Nat) (s : Session) (code : Nat) (length : Int) :
    Session × Except Err Unit :=
  run fuel s (task.reply code length)

/-- The reply loop: while (not_ready()) process_reply(get_reply()). -/
def reply_loop (fuel : Nat) (s : Session) : Session × Except Err Unit :=
  run fuel s task.loop

/-- handle_replies: return at once when already in copy-in, else loop
until the session state is ready_for_query. -/
def handle_replies (fuel : Nat) (s : Session) : Session × Except Err Unit :=
  if s.state = session_state.copy_in then (s, Except.ok ())
  else reply_loop fuel s

/-- startup_msg: 8-byte prefix (length placeholder, protocol 3.0), the
user and database key/value pairs with their NUL terminators, a final
extra NUL after the database value, then the total length patched into
the first four bytes. -/
def startup_msg (user database : Bytes) : Bytes :=
  let database := if database = [] then user else database
  let msg :=
    append (append (append (append [0, 0, 0, 0, 0, 3, 0, 0]
      (strBytes ("user")) 1) user 1) (strBytes ("database")) 1) database 2
  be32n msg.length ++ msg.drop 4

/-- query_msg: tag Q, length = request size + 5, the request bytes, one
trailing NUL. -/
def query_msg (request : Bytes) : Bytes :=
  append ([81] ++ be32n (request.length + 5)) request 1

/-- cancel_msg: length 16, big-endian int16 pair 1234 / 5678, then the
stored pid and secret key, four big-endian bytes each. -/
def cancel_msg (s : Session) : Bytes :=
  be32n 16 ++ be16n 1234 ++ be16n 5678 ++ be32n s.pid ++ be32n s.skey

/-- terminate: send the single message X with length 4 (empty payload). -/
def terminate (s : Session) : Session := send_msg s [88, 0, 0, 0, 4]

/-- sync: send the single message S with length 4. -/
def sync (s : Session) : Session := send_msg s [83, 0, 0, 0, 4]

/-- flush: send the single message H with length 4. -/
def flush (s : Session) : Session := send_msg s [72, 0, 0, 0, 4]

/-- copy_done: send the single message c with length 4. -/
def copy_done (s : Session) : Session := send_msg s [99, 0, 0, 0, 4]

/-- copy_fail: tag f, length = message size + 5, the message, one
trailing NUL. -/
def copy_fail (s : Session) (err_msg : Bytes) : Session :=
  send_msg s (append ([102] ++ be32n (err_msg.length + 5)) err_msg 1)

/-- copy_data: outside copy-in state it throws without sending; else it
sends tag d, length = data size + 5, the data, and — via append with its
default one NUL — a trailing zero byte. -/
def copy_data (s : Session) (data : Bytes) : Session × Except Err Unit :=
  if s.state ≠ session_state.copy_in then
    (s, Except.error
      (Err.runtimeError ("Attempt to copy data when not in copy in mode")))
  else
    (send_msg s (append ([100] ++ be32n (data.length + 5)) data 1),
     Except.ok ())

/-- cancel: construct a second socket, connect it to the same remote
endpoint, and write cancel_msg there.  The session object itself is not
touched; the bytes written to the fresh socket are returned next to it. -/
def cancel (s : Session) : Session × Bytes := (s, cancel_msg s)

/-- cleanup: if the socket is open, send terminate; if it is (still)
open, close it.  No other member is touched. -/
def cleanup (s : Session) : Session :=
  let s1 := if s.socket_open then terminate s else s
  if s1.socket_open then { s1 with socket_open := false } else s1

/-- connect_local (successful case): cleanup, assemble the endpoint path
path + "/" + prefix + port (returned alongside), open the socket, set
state to not_started. -/
def connect_local (s : Session) (port path pfix : Bytes) : Session × Bytes :=
  let s1 := cleanup s
  let ep := path ++ strBytes ("/") ++ pfix ++ port
  ({ s1 with socket_open := true, state := session_state.not_started }, ep)

/-- connect_tcp (successful case: some resolved endpoint accepted the
connection): cleanup, open the socket, set state to not_started. -/
def connect_tcp (s : Session) : Session :=
  let s1 := cleanup s
  { s1 with socket_open := true, state := session_state.not_started }

/-- startup: clear the parameter map FIRST, then check the state (throw
when not not_started), then send the startup message and process one
reply; return ready(). -/
def startup (fuel : Nat) (s : Session) (user database : Bytes) :
    Session × Except Err Bool :=
  let s1 := { s with pars := [] }
  if s1.state ≠ session_state.not_started then
    (s1, Except.error
      (Err.runtimeError ("Reset connection before sending startup request")))
  else
    let s2 := send_msg s1 (startup_msg user database)
    match get_reply s2 with
    | (s3, Except.error e) => (s3, Except.error e)
    | (s3, Except.ok hdr) =>
      match process_reply fuel s3 hdr.1 hdr.2 with
      | (s4, Except.error e) => (s4, Except.error e)
      | (s4, Except.ok _) =>
        (s4, Except.ok (s4.state = session_state.ready_for_query))

/-- query: set state to in_query, send the query message, handle all
replies. -/
def query (fuel : Nat) (s : Session) (request : Bytes) :
    Session × Except Err Unit :=
  let s1 := { s with state := session_state.in_query }
  handle_replies fuel (send_msg s1 (query_msg request))

/-- get_parameter: make_pair(pars[key], pars.find(key) != pars.end());
operator[] default-inserts an absent key.  Left-to-right evaluation of
the two make_pair arguments is assumed (the C++ order is unspecified;
only the boolean component depends on the choice). -/
def get_parameter (s : Session) (key : Bytes) : Session × (Bytes × Bool) :=
  let p := mapBracket s.pars key
  ({ s with pars := p.1 }, (p.2, (mapFind p.1 key).isSome))

/-- toggle_echo_codes -/
def toggle_echo_codes (s : Session) : Session :=
  { s with echo_codes := !s.echo_codes }

/-! Concrete sessions used by the closed theorems below. -/

/-- A sample field descriptor. -/
def fdEx : field_descriptor := ⟨1, 2, 3, 4, 5, 6⟩

/-- A connected, started session holding data in every resettable
member. -/
def sEx : Session :=
  { initSession with
    socket_open := true,
    state := session_state.ready_for_query,
    pid := 7,
    skey := 8,
    pars := [(strBytes ("k"), strBytes ("v"))],
    row_queue := [[49]],
    notifications := [strBytes ("n")],
    field_map := [(strBytes ("c"), fdEx)] }

/-- A session awaiting replies to a query whose server answers with a
single CopyInResponse (text format) and nothing further. -/
def c1Sess : Session :=
  { initSession with
    socket_open := true,
    state := session_state.ready_for_query,
    input := [71, 0, 0, 0, 5, 0] }

/-- A session about to process a CommandComplete whose payload is the
NUL-terminated tag SELECT 1. -/
def c4Sess : Session :=
  { initSession with
    state := session_state.in_query,
    input := strBytes ("SELECT 1") ++ [0] }

/-- A session in copy-in state. -/
def c6Sess : Session := { initSession with state := session_state.copy_in }

/-- A session about to process a ReadyForQuery status byte I. -/
def c9Sess : Session := { initSession with input := [73] }

/-! Helper lemmas. -/

/-- cleanup closes the socket and, when it was open, records the
terminate message; every other member is untouched. -/
theorem cleanup_eq (s : Session) :
    cleanup s =
      { s with socket_open := false,
               sent := if s.socket_open then s.sent ++ [[88, 0, 0, 0, 4]]
                       else s.sent } := by
  cases s with
  | mk p1 p2 p3 p4 p5 p6 p7 p8 p9 p10 p11 p12 p13 => cases p2 <;> rfl

/-- Appending a binding for an absent key makes mapFind return it. -/
theorem mapFind_append (m : List (Bytes × Bytes)) (key v : Bytes)
    (h : mapFind m key = Option.none) :
    mapFind (m ++ [(key, v)]) key = Option.some v := by
  induction m with
  | nil => simp [mapFind]
  | cons p rest ih =>
    obtain ⟨k, w⟩ := p
    by_cases hk : k = key
    · simp [mapFind, hk] at h
    · simp only [List.cons_append, mapFind, hk, if_false] at h ⊢
      exact ih h

/-! Claim theorems. -/

/-- C1: when the server answers a query with CopyInResponse (G) and then
sends nothing further, query does not return control to the caller in
state copy_in; after consuming the G message (state copy_in, input
drained) the reply loop issues another read and blocks, because the loop
condition only tests ready_for_query and the copy_in guard of
handle_replies runs before the loop, after query has already set the
state to in_query. -/
theorem c1_query_copyin_blocks :
    (query 5 c1Sess [59]).2 = Except.error Err.blocked ∧
    (query 5 c1Sess [59]).1.state = session_state.copy_in ∧
    (query 5 c1Sess [59]).1.buf_fmt = buffer_format.copy_text ∧
    (query 5 c1Sess [59]).1.input = [] := ⟨rfl, rfl, rfl, rfl⟩

/-- C2 counterexample: a successful connect_local on a session holding a
parameter, queue entries, a field map and cancellation keys keeps all of
them; they are not reset to their initial empty/zero values. -/
theorem c2_connect_keeps_data :
    (connect_local sEx (strBytes ("5432")) (strBytes ("/private/tmp"))
        (strBytes (".s.PGSQL."))).1.pars ≠ [] ∧
    (connect_local sEx (strBytes ("5432")) (strBytes ("/private/tmp"))
        (strBytes (".s.PGSQL."))).1.pars = [(strBytes ("k"), strBytes ("v"))] ∧
    (connect_local sEx (strBytes ("5432")) (strBytes ("/private/tmp"))
        (strBytes (".s.PGSQL."))).1.pid = 7 ∧
    (connect_local sEx (strBytes ("5432")) (strBytes ("/private/tmp"))
        (strBytes (".s.PGSQL."))).1.row_queue = [[49]] ∧
    (connect_local sEx (strBytes ("5432")) (strBytes ("/private/tmp"))
        (strBytes (".s.PGSQL."))).1.notifications = [strBytes ("n")] ∧
    (connect_local sEx (strBytes ("5432")) (strBytes ("/private/tmp"))
        (strBytes (".s.PGSQL."))).1.field_map = [(strBytes ("c"), fdEx)] := by
  refine ⟨?_, rfl, rfl, rfl, rfl, rfl⟩
  decide

/-- C2 (amended): after a successful connect_local or connect_tcp the
state is not_started, and the parameter map, field map, pid and skey,
row queue and notifications queue all keep their prior values (cleanup
only terminates and closes the old socket). -/
theorem c2_connect_frame (s : Session) (port path pfix : Bytes) :
    (connect_local s port path pfix).1.state = session_state.not_started ∧
    (connect_local s port path pfix).1.pars = s.pars ∧
    (connect_local s port path pfix).1.field_map = s.field_map ∧
    (connect_local s port path pfix).1.pid = s.pid ∧
    (connect_local s port path pfix).1.skey = s.skey ∧
    (connect_local s port path pfix).1.row_queue = s.row_queue ∧
    (connect_local s port path pfix).1.notifications = s.notifications ∧
    (connect_tcp s).state = session_state.not_started ∧
    (connect_tcp s).pars = s.pars ∧
    (connect_tcp s).field_map = s.field_map ∧
    (connect_tcp s).pid = s.pid ∧
    (connect_tcp s).skey = s.skey ∧
    (connect_tcp s).row_queue = s.row_queue ∧
    (connect_tcp s).notifications = s.notifications := by
  simp [connect_local, connect_tcp, cleanup_eq]

/-- C3 counterexample: startup called in state ready_for_query fails
with the state error and sends nothing, but the parameter map does not
keep its prior value: pars.clear() runs before the state check. -/
theorem c3_startup_clears_pars :
    (startup 3 sEx [] []).2 =
      Except.error
        (Err.runtimeError ("Reset connection before sending startup request")) ∧
    sEx.pars ≠ [] ∧
    (startup 3 sEx [] []).1.pars = [] ∧
    (startup 3 sEx [] []).1.sent = sEx.sent ∧
    (startup 3 sEx [] []).1.state = sEx.state ∧
    (startup 3 sEx [] []).1.field_map = sEx.field_map ∧
    (startup 3 sEx [] []).1.row_queue = sEx.row_queue ∧
    (startup 3 sEx [] []).1.notifications = sEx.notifications := by
  refine ⟨rfl, ?_, rfl, rfl, rfl, rfl, rfl, rfl⟩
  decide

/-- C3 (amended): if startup is called when the state is not
not_started, it fails with the state error and nothing is sent; the
state, field map and queues keep their prior values, but the parameter
map is cleared (the clear precedes the state check), after which the
session remains usable. -/
theorem c3_startup_wrong_state (fuel : Nat) (s : Session)
    (user database : Bytes) (h : s.state ≠ session_state.not_started) :
    startup fuel s user database =
      ({ s with pars := [] },
       Except.error
         (Err.runtimeError ("Reset connection before sending startup request"))) := by
  simp only [startup]
  rw [if_pos h]

/-- C3 witness: the amended startup theorem applied to the concrete
ready_for_query session. -/
theorem c3_startup_wrong_state_witness :
    sEx.state ≠ session_state.not_started ∧
    startup 3 sEx [] [] =
      ({ sEx with pars := [] },
       Except.error
         (Err.runtimeError ("Reset connection before sending startup request"))) :=
  ⟨by decide, c3_startup_wrong_state 3 sEx [] [] (by decide)⟩

/-- C4 counterexample: CommandComplete with payload SELECT 1 followed by
its NUL terminator pushes the whole payload — trailing NUL included —
onto the notifications queue, not the eight-character tag string. -/
theorem c4_command_complete_keeps_nul :
    (process_reply 1 c4Sess 67 13).1.notifications =
      [strBytes ("SELECT 1") ++ [0]] ∧
    (process_reply 1 c4Sess 67 13).1.notifications ≠ [strBytes ("SELECT 1")] ∧
    (process_reply 1 c4Sess 67 13).1.state = session_state.complete ∧
    (process_reply 1 c4Sess 67 13).2 = Except.ok () := by
  refine ⟨rfl, ?_, rfl, rfl⟩
  decide

/-- C4 (amended): processing CommandComplete pushes the payload bytes
converted verbatim to a string — the command tag plus its trailing NUL —
onto the notifications queue and sets the state to complete. -/
theorem c4_command_complete (f : Nat) (s : Session) (length : Int)
    (h : unread_bytes length ≤ s.input.length) :
    process_reply (f + 1) s 67 length =
      ({ s with
         input := s.input.drop (unread_bytes length),
         notifications :=
           s.notifications ++ [buf2str (s.input.take (unread_bytes length))],
         state := session_state.complete }, Except.ok ()) := by
  simp only [process_reply, run, read_remaining, readBytes, if_pos h]

/-- C4 witness: the amended CommandComplete theorem applied to the
concrete SELECT 1 payload. -/
theorem c4_command_complete_witness :
    unread_bytes 13 ≤ c4Sess.input.length ∧
    process_reply 1 c4Sess 67 13 =
      ({ c4Sess with
         input := c4Sess.input.drop (unread_bytes 13),
         notifications :=
           c4Sess.notifications ++ [buf2str (c4Sess.input.take (unread_bytes 13))],
         state := session_state.complete }, Except.ok ()) :=
  ⟨by decide, c4_command_complete 0 c4Sess 13 (by decide)⟩

/-- C5 counterexample: terminate called from ready_for_query sends the
X message but leaves the state at ready_for_query, not not_connected. -/
theorem c5_terminate_state_unchanged :
    (terminate sEx).state = session_state.ready_for_query ∧
    (terminate sEx).state ≠ session_state.not_connected ∧
    (terminate sEx).sent = [[88, 0, 0, 0, 4]] := by
  refine ⟨rfl, ?_, rfl⟩
  decide

/-- C5 (amended): terminate, callable in any state, sends exactly the
single X message of length 4 with empty payload and changes nothing else
about the session; in particular the state is left unchanged. -/
theorem c5_terminate_sends_x (s : Session) :
    terminate s = { s with sent := s.sent ++ [[88, 0, 0, 0, 4]] } ∧
    (terminate s).state = s.state := ⟨rfl, rfl⟩

/-- C6: copy_data in copy_in state on the two bytes 97 98 sends the
frame d 00 00 00 07 97 98 00 — a trailing NUL is appended by the
append helper and the length field is payload size plus five — instead
of the claimed NUL-free frame d 00 00 00 06 97 98. -/
theorem c6_copy_data_trailing_nul :
    (copy_data c6Sess [97, 98]).1.sent = [[100, 0, 0, 0, 7, 97, 98, 0]] ∧
    (copy_data c6Sess [97, 98]).2 = Except.ok () ∧
    (copy_data c6Sess [97, 98]).1.sent ≠ [[100, 0, 0, 0, 6, 97, 98]] := by
  refine ⟨rfl, rfl, ?_⟩
  decide

/-- C7: cancel writes, to a fresh socket and not to the session's own
transport (sent is untouched), the 16-byte CancelRequest: big-endian
length 16, the fixed request code 80877102, then the stored pid and
secret key as four big-endian bytes each. -/
theorem c7_cancel_request_bytes (s : Session) :
    (cancel s).2 = be32n 16 ++ be32n 80877102 ++ be32n s.pid ++ be32n s.skey ∧
    (cancel s).2.length = 16 ∧
    (cancel s).1.sent = s.sent := ⟨rfl, rfl, rfl⟩

/-- C8: issuing cancel does not modify the session at all — state,
transaction status, buffer format, queues, parameter map and field map
are exactly those of the original session. -/
theorem c8_cancel_isolation (s : Session) : (cancel s).1 = s := rfl

/-- C9: processing ReadyForQuery with status byte I sets the transaction
status to idle, T to active, E to error — each with state
ready_for_query — and any other status byte fails with the
invalid-transaction-status protocol error. -/
theorem c9_ready_for_query_status (f : Nat) (s : Session) (b : Nat)
    (rest : Bytes) (length : Int) (h : s.input = b :: rest) :
    process_reply (f + 1) s 90 length =
      (if b = 73 then
        ({ s with input := rest, ts := transaction_status.idle,
                  state := session_state.ready_for_query }, Except.ok ())
      else if b = 84 then
        ({ s with input := rest, ts := transaction_status.active,
                  state := session_state.ready_for_query }, Except.ok ())
      else if b = 69 then
        ({ s with input := rest, ts := transaction_status.error,
                  state := session_state.ready_for_query }, Except.ok ())
      else
        ({ s with input := rest },
         Except.error (Err.runtimeError ("Invalid transaction status")))) := by
  simp only [process_reply, run, read1, readBytes, h, List.length_cons,
    List.take_succ_cons, List.take_zero, List.drop_succ_cons, List.drop_zero,
    List.headD_cons, Nat.le_add_left, if_pos]

/-- C9 witness: the ReadyForQuery theorem applied to the concrete status
byte I. -/
theorem c9_ready_for_query_status_witness :
    c9Sess.input = 73 :: [] ∧
    process_reply 1 c9Sess 90 5 =
      ({ c9Sess with input := [], ts := transaction_status.idle,
                     state := session_state.ready_for_query }, Except.ok ()) :=
  ⟨rfl, by simpa using c9_ready_for_query_status 0 c9Sess 73 [] 5 rfl⟩

/-- C10: get_parameter on a key absent from the parameter map mutates
the map — the key is inserted with the empty value by operator[] — and
the value component of the returned pair is the empty string. -/
theorem c10_get_parameter_inserts (s : Session) (key : Bytes)
    (h : mapFind s.pars key = Option.none) :
    (get_parameter s key).1.pars = s.pars ++ [(key, [])] ∧
    mapFind (get_parameter s key).1.pars key = Option.some [] ∧
    (get_parameter s key).2.1 = [] := by
  simp only [get_parameter, mapBracket, h]
  exact ⟨trivial, mapFind_append s.pars key [] h, trivial⟩

/-- C10 witness: the get_parameter theorem applied to a fresh session
and a concrete absent key. -/
theorem c10_get_parameter_inserts_witness :
    mapFind initSession.pars (strBytes ("x")) = Option.none ∧
    ((get_parameter initSession (strBytes ("x"))).1.pars =
       initSession.pars ++ [(strBytes ("x"), [])] ∧
     mapFind (get_parameter initSession (strBytes ("x"))).1.pars
       (strBytes ("x")) = Option.some [] ∧
     (get_parameter initSession (strBytes ("x"))).2.1 = []) :=
  ⟨rfl, c10_get_parameter_inserts initSession (strBytes ("x")) rfl⟩

end PG
